import Mathlib

/-!
Shallow embedding of the navi_generator database operator
(modules/tools/navi_generator/backend/database/db_operator.cc).

The SQLite wrapper (Open / ExcuteQuery / ExcuteNonQuery / Begin-, Commit-,
RollbackTransaction) is the external driver collaborator of the spec: each
executed statement may fail, which we model by boolean oracles supplied to
every operation (one flag per executed statement, or a Nat-indexed family
for statements executed in a loop).  A transaction is modelled by its
driver contract: statements executed after BeginTransaction act on the
working state, CommitTransaction keeps that state, and RollbackTransaction
restores the state observed at BeginTransaction.  The relational store
itself is a record of the five tables as lists of rows plus the catalog of
existing table names; the driver evaluation of the fixed aggregate queries
(count, max) is modelled from the spec's description of those queries.
-/

namespace NaviGenDB

/-- The five table names, in the order of the C++ kTableNames array
(indices 0..4 are the TableNames enum values). -/
def kTableNames : List String :=
  ["speed_limit", "way", "way_nodes", "way_data", "navi_data"]

/-- Maximum number of rows of a navi_data shard table (C++ constant
kMaxRowNumberOfDBTable). -/
def kMaxRowNumberOfDBTable : Nat := 10000

/-- Domain record: one speed-limit row (struct SpeedLimit). -/
structure SpeedLimit where
  id : Nat
  speed : Nat
deriving DecidableEq

/-- Domain record: a way (struct Way).  The sentinel 0 on pre_way_id /
next_way_id means "no predecessor / successor". -/
structure Way where
  way_id : Nat
  pre_way_id : Nat
  next_way_id : Nat
  speed_min : Nat
  speed_max : Nat
deriving DecidableEq

/-- Domain record: one node of a way (struct Node). -/
structure Node where
  node_index : Nat
  data_line_number : Nat
  node_value : String
deriving DecidableEq

/-- Domain aggregate: a way plus its ordered nodes (struct WayNodes). -/
structure WayNodes where
  way_id : Nat
  nodes : List Node
deriving DecidableEq

/-- Domain record: raw way data (struct WayData); the blob is a byte list. -/
structure WayData where
  way_id : Nat
  raw_data : List Nat
  navi_number : Nat
  navi_table_id : Nat
deriving DecidableEq

/-- Domain record: one navigation payload (struct NaviData). -/
structure NaviData where
  navi_index : Nat
  data : List Nat
deriving DecidableEq

/-- Domain aggregate: a way plus its navigation payloads (struct NaviInfo). -/
structure NaviInfo where
  way_id : Nat
  navi_data : List NaviData
deriving DecidableEq

/-- A stored row of the way table.  The pre_way_id / next_way_id /
speed_min / speed_max columns are nullable: none models SQL NULL. -/
structure WayRow where
  way_id : Nat
  pre_way_id : Option Nat
  next_way_id : Option Nat
  speed_min : Option Nat
  speed_max : Option Nat
deriving DecidableEq

/-- A stored row of the way_nodes table. -/
structure WayNodesRow where
  way_id : Nat
  node_index : Nat
  data_line_number : Nat
  node_value : String
deriving DecidableEq

/-- A stored row of the way_data table. -/
structure WayDataRow where
  way_id : Nat
  raw_data : List Nat
  navi_number : Nat
  navi_table_id : Nat
deriving DecidableEq

/-- A stored row of the navi_data table. -/
structure NaviDataRow where
  way_id : Nat
  navi_index : Nat
  data : List Nat
deriving DecidableEq

/-- The state of the relational store: the catalog of existing table
names (sqlite_master) and the contents of the five fixed tables, plus
the row counts of the dynamically named navi_data_{id} shard tables
(read, never written, by this component). -/
structure DB where
  tables : List String
  speed_limit : List SpeedLimit
  way : List WayRow
  way_nodes : List WayNodesRow
  way_data : List WayDataRow
  navi_data : List NaviDataRow
  navi_shard_counts : Nat → Nat

/-- The empty store: no tables, no rows, empty shard tables. -/
def emptyDB : DB :=
  { tables := []
    speed_limit := []
    way := []
    way_nodes := []
    way_data := []
    navi_data := []
    navi_shard_counts := fun _ => 0 }

/-!
## Schema manager (DBOperatorBase)
-/

/-- DBOperatorBase::IsTableExisting.  The guard rejects an index at or
above kMaxNumberOfTables (= 5); otherwise a catalog query counts the
sqlite_master entries whose name matches the fixed table name, and the
result is count > 0.  catalogOk models the success of the catalog
query (ExcuteQuery); on query failure the function returns false. -/
def IsTableExisting (catalogOk : Bool) (db : DB) (t : Nat) : Bool :=
  if 5 ≤ t then false
  else if catalogOk then
    decide (0 < db.tables.countP (fun s => s == kTableNames.getD t ""))
  else false

/-- Effect of the CREATE TABLE DDL for table index t on the catalog. -/
def createTableEffect (t : Nat) (db : DB) : DB :=
  { db with tables := db.tables ++ [kTableNames.getD t ""] }

/-- Modelled from the spec: the SQLite wrapper's ExcuteNonQuery (the
wrapper is not under src/) applied to the empty SQL string that
CreateTable's switch leaves behind for an unknown table index.  Spec
section 9 records that this path "silently no-ops ... and still reports
overall success", so executing the empty statement succeeds and has no
effect on the store. -/
def execEmptyStatementOk : Bool := true

/-- DBOperatorBase::CreateTable.  For one of the five known table
indices the DDL statement is executed (execOk models ExcuteNonQuery
success; on success the table name is added to the catalog).  For an
unknown index the switch falls through with an empty SQL string, which
the wrapper executes as a success no-op (execEmptyStatementOk). -/
def CreateTable (execOk : Bool) (db : DB) (t : Nat) : Bool × DB :=
  if t < 5 then
    if execOk then (true, createTableEffect t db) else (false, db)
  else (execEmptyStatementOk, db)

/-!
## Transactional insert loops

SaveWayNodes, SaveNaviData and FillTableSpeedLimit all run the same
shape: BeginTransaction; insert one row per item of a list, breaking
out with res = false on the first ExcuteNonQuery failure; then
CommitTransaction (keeping the inserted rows) when res is true and
RollbackTransaction (restoring the state at BeginTransaction)
otherwise.  insertLoop is the in-transaction loop: ok i is the success
of the i-th insert statement, ins the per-item row insertion. -/

def insertLoop {α : Type} (ok : Nat → Bool) (ins : α → DB → DB) :
    List α → Nat → DB → Bool × DB
  | [], _, db => (true, db)
  | a :: rest, i, db =>
    if ok i then insertLoop ok ins rest (i + 1) (ins a db)
    else (false, db)

/-- Begin / loop / commit-or-rollback wrapper: on loop success the
in-transaction state is committed, on failure the state at
BeginTransaction is restored and false is returned. -/
def runInTransaction {α : Type} (ok : Nat → Bool) (ins : α → DB → DB)
    (items : List α) (db : DB) : Bool × DB :=
  let r := insertLoop ok ins items 0 db
  if r.1 then (true, r.2) else (false, db)

/-!
## Record repository (DBOperator)
-/

/-- The way_nodes row inserted for one node: way_id is bound once
before the loop, the three node columns per iteration. -/
def wayNodesRowOf (wid : Nat) (n : Node) : WayNodesRow :=
  { way_id := wid
    node_index := n.node_index
    data_line_number := n.data_line_number
    node_value := n.node_value }

/-- The navi_data row inserted for one NaviData entry. -/
def naviDataRowOf (wid : Nat) (d : NaviData) : NaviDataRow :=
  { way_id := wid, navi_index := d.navi_index, data := d.data }

/-- The speed_limit row inserted for loop index i (i runs 1..13 in the
C++ loop): speed = speed_base + speed_step * (i - 1) = 30 + 10*(i-1). -/
def speedLimitRowOf (i : Nat) : SpeedLimit :=
  { id := i, speed := 30 + 10 * (i - 1) }

/-- The row bound by SaveWay's INSERT: pre_way_id and next_way_id are
bound as SQL NULL exactly when the field is the sentinel 0 (the C++
ternary on BindParam), while speed_min and speed_max are always bound
as the literal value. -/
def wayRowOf (w : Way) : WayRow :=
  { way_id := w.way_id
    pre_way_id := if w.pre_way_id = 0 then none else some w.pre_way_id
    next_way_id := if w.next_way_id = 0 then none else some w.next_way_id
    speed_min := some w.speed_min
    speed_max := some w.speed_max }

/-- DBOperator::FillTableSpeedLimit: transactional insert of the 13
seed rows, loop index i = 1..13. -/
def FillTableSpeedLimit (ok : Nat → Bool) (db : DB) : Bool × DB :=
  runInTransaction ok
    (fun i d => { d with speed_limit := d.speed_limit ++ [speedLimitRowOf i] })
    ((List.range 13).map (fun k => k + 1)) db

/-- DBOperator::InitDatabase: fast path if the way table (index 1)
already exists; otherwise create the five tables in order and seed the
speed_limit table, short-circuiting on the first failure (the C++
if-with-conjunction chain). -/
def InitDatabase (catalogOk : Bool) (createOk seedOk : Nat → Bool)
    (db : DB) : Bool × DB :=
  if IsTableExisting catalogOk db 1 then (true, db)
  else
    let r0 := CreateTable (createOk 0) db 0
    if r0.1 then
      let r1 := CreateTable (createOk 1) r0.2 1
      if r1.1 then
        let r2 := CreateTable (createOk 2) r1.2 2
        if r2.1 then
          let r3 := CreateTable (createOk 3) r2.2 3
          if r3.1 then
            let r4 := CreateTable (createOk 4) r3.2 4
            if r4.1 then FillTableSpeedLimit seedOk r4.2
            else (false, r4.2)
          else (false, r3.2)
        else (false, r2.2)
      else (false, r1.2)
    else (false, r0.2)

/-- DBOperator::SaveWay: a single INSERT (no explicit transaction);
execOk models ExcuteNonQuery success. -/
def SaveWay (execOk : Bool) (db : DB) (w : Way) : Bool × DB :=
  if execOk then (true, { db with way := db.way ++ [wayRowOf w] })
  else (false, db)

/-- DBOperator::SaveWayNodes: transactional insert of one row per
node, way_id bound once before the loop. -/
def SaveWayNodes (ok : Nat → Bool) (db : DB) (wn : WayNodes) : Bool × DB :=
  runInTransaction ok
    (fun n d => { d with way_nodes := d.way_nodes ++ [wayNodesRowOf wn.way_id n] })
    wn.nodes db

/-- DBOperator::SaveWayData: a single INSERT (no explicit transaction). -/
def SaveWayData (execOk : Bool) (db : DB) (wd : WayData) : Bool × DB :=
  if execOk then
    (true, { db with way_data := db.way_data ++
      [{ way_id := wd.way_id, raw_data := wd.raw_data,
         navi_number := wd.navi_number, navi_table_id := wd.navi_table_id }] })
  else (false, db)

/-- DBOperator::SaveNaviData: transactional insert of one row per
NaviData entry of the NaviInfo aggregate. -/
def SaveNaviData (ok : Nat → Bool) (db : DB) (ni : NaviInfo) : Bool × DB :=
  runInTransaction ok
    (fun d s => { s with navi_data := s.navi_data ++ [naviDataRowOf ni.way_id d] })
    ni.navi_data db

/-!
## Queries

Each query builds a SELECT ... WHERE way_id = ... statement; queryOk
models ExcuteQuery success (on failure the function returns false at
once, leaving the output untouched).  The while (reader->Read()) loop
is modelled by an explicit read loop over the matching rows: res
starts false and is set true on every iteration.
-/

/-- Decoding of a row of the way table by QueryWayWithWayId's loop
body: a column whose declared data type is SQL NULL is decoded to 0,
otherwise the stored value is read. -/
def wayOfRow (r : WayRow) : Way :=
  { way_id := r.way_id
    pre_way_id := match r.pre_way_id with | none => 0 | some v => v
    next_way_id := match r.next_way_id with | none => 0 | some v => v
    speed_min := match r.speed_min with | none => 0 | some v => v
    speed_max := match r.speed_max with | none => 0 | some v => v }

/-- The node read from a way_nodes row (columns 1..3 of SELECT *). -/
def nodeOfRow (r : WayNodesRow) : Node :=
  { node_index := r.node_index
    data_line_number := r.data_line_number
    node_value := r.node_value }

/-- The NaviData entry read from a navi_data row. -/
def naviDataOfRow (r : NaviDataRow) : NaviData :=
  { navi_index := r.navi_index, data := r.data }

/-- The WayData read from a way_data row (columns 0..3 of SELECT *). -/
def wayDataOfRow (r : WayDataRow) : WayData :=
  { way_id := r.way_id, raw_data := r.raw_data,
    navi_number := r.navi_number, navi_table_id := r.navi_table_id }

/-- Read loop of QueryWayWithWayId / QueryWayDataWithWayId shape: each
iteration overwrites the caller's output record and sets res. -/
def overwriteReadLoop {α β : Type} (f : α → β) :
    List α → Bool → β → Bool × β
  | [], res, out => (res, out)
  | r :: rest, _, _ => overwriteReadLoop f rest true (f r)

/-- Read loop of the appending queries: each iteration appends the
decoded row to the accumulator and sets res. -/
def appendReadLoop {α β : Type} (f : α → β) :
    List α → Bool → List β → Bool × List β
  | [], res, acc => (res, acc)
  | r :: rest, _, acc => appendReadLoop f rest true (acc ++ [f r])

/-- DBOperator::QueryWayWithWayId.  way is the caller's output record
(overwritten only when a row is read). -/
def QueryWayWithWayId (queryOk : Bool) (db : DB) (wid : Nat)
    (way : Way) : Bool × Way :=
  if queryOk then
    overwriteReadLoop wayOfRow
      (db.way.filter (fun r => r.way_id == wid)) false way
  else (false, way)

/-- DBOperator::QueryWayNodesWithWayId.  The loop collects the nodes
into a local vector; the caller's aggregate is overwritten (with the
queried way_id and the collected nodes) only when that vector is
non-empty. -/
def QueryWayNodesWithWayId (queryOk : Bool) (db : DB) (wid : Nat)
    (wn : WayNodes) : Bool × WayNodes :=
  if queryOk then
    let r := appendReadLoop nodeOfRow
      (db.way_nodes.filter (fun x => x.way_id == wid)) false []
    (r.1, if 0 < r.2.length then { way_id := wid, nodes := r.2 } else wn)
  else (false, wn)

/-- DBOperator::QueryWayDataWithWayId. -/
def QueryWayDataWithWayId (queryOk : Bool) (db : DB) (wid : Nat)
    (wd : WayData) : Bool × WayData :=
  if queryOk then
    overwriteReadLoop wayDataOfRow
      (db.way_data.filter (fun r => r.way_id == wid)) false wd
  else (false, wd)

/-- DBOperator::QueryNaviDataWithWayId (the vector overload): each row
read is emplace_back-ed onto the caller's vector, which is never
cleared first. -/
def QueryNaviDataWithWayId (queryOk : Bool) (db : DB) (wid : Nat)
    (out : List NaviData) : Bool × List NaviData :=
  if queryOk then
    appendReadLoop naviDataOfRow
      (db.navi_data.filter (fun r => r.way_id == wid)) false out
  else (false, out)

/-!
## Updates and deletes
-/

/-- DBOperator::UpdateWay: UPDATE way SET pre_way_id, next_way_id,
speed_min, speed_max WHERE way_id = wid, with the same sentinel-0
NULL binding for pre_way_id / next_way_id as SaveWay and literal
binding for the speed columns. -/
def UpdateWay (execOk : Bool) (db : DB) (wid : Nat) (w : Way) : Bool × DB :=
  if execOk then
    (true, { db with way := db.way.map (fun r =>
      if r.way_id == wid then
        { r with
          pre_way_id := if w.pre_way_id = 0 then none else some w.pre_way_id
          next_way_id := if w.next_way_id = 0 then none else some w.next_way_id
          speed_min := some w.speed_min
          speed_max := some w.speed_max }
      else r) })
  else (false, db)

/-- DBOperator::UpdateWaySpeedLimit: UPDATE way SET speed_min,
speed_max WHERE way_id = wid (it updates the way table, despite the
name). -/
def UpdateWaySpeedLimit (execOk : Bool) (db : DB) (wid : Nat)
    (smin smax : Nat) : Bool × DB :=
  if execOk then
    (true, { db with way := db.way.map (fun r =>
      if r.way_id == wid then
        { r with speed_min := some smin, speed_max := some smax }
      else r) })
  else (false, db)

/-- DBOperator::DeleteWayNodes: DELETE FROM way_nodes WHERE way_id. -/
def DeleteWayNodes (execOk : Bool) (db : DB) (wid : Nat) : Bool × DB :=
  if execOk then
    (true, { db with way_nodes := db.way_nodes.filter (fun r => !(r.way_id == wid)) })
  else (false, db)

/-- DBOperator::DeleteWayData: DELETE FROM way_data WHERE way_id. -/
def DeleteWayData (execOk : Bool) (db : DB) (wid : Nat) : Bool × DB :=
  if execOk then
    (true, { db with way_data := db.way_data.filter (fun r => !(r.way_id == wid)) })
  else (false, db)

/-- DBOperator::DeleteNaviData: DELETE FROM navi_data WHERE way_id. -/
def DeleteNaviData (execOk : Bool) (db : DB) (wid : Nat) : Bool × DB :=
  if execOk then
    (true, { db with navi_data := db.navi_data.filter (fun r => !(r.way_id == wid)) })
  else (false, db)

/-- DBOperator::UpdateWayNodes: delete the existing way_nodes rows for
wid, then a full SaveWayNodes of the new aggregate; the re-save is not
attempted when the delete fails. -/
def UpdateWayNodes (deleteOk : Bool) (ok : Nat → Bool) (db : DB)
    (wid : Nat) (wn : WayNodes) : Bool × DB :=
  let r := DeleteWayNodes deleteOk db wid
  if r.1 then SaveWayNodes ok r.2 wn else (false, r.2)

/-- DBOperator::UpdateWayData: UPDATE way_data SET raw_data,
navi_number, navi_table_id WHERE way_id. -/
def UpdateWayData (execOk : Bool) (db : DB) (wid : Nat)
    (wd : WayData) : Bool × DB :=
  if execOk then
    (true, { db with way_data := db.way_data.map (fun r =>
      if r.way_id == wid then
        { r with raw_data := wd.raw_data, navi_number := wd.navi_number,
                 navi_table_id := wd.navi_table_id }
      else r) })
  else (false, db)

/-- DBOperator::UpdateNaviData: delete the existing navi_data rows for
wid, then a full SaveNaviData; the re-save is not attempted when the
delete fails. -/
def UpdateNaviData (deleteOk : Bool) (ok : Nat → Bool) (db : DB)
    (wid : Nat) (ni : NaviInfo) : Bool × DB :=
  let r := DeleteNaviData deleteOk db wid
  if r.1 then SaveNaviData ok r.2 ni else (false, r.2)

/-- DBOperator::DeleteWay: DELETE FROM way WHERE way_id, then the
explicit app-level cascade DeleteWayNodes / DeleteWayData /
DeleteNaviData in that order, aborting at the first failure.  (The
schema-level ON DELETE CASCADE of the store is not modelled: the
explicit cascade is, per the spec, a defense against a driver that
does not enforce it.) -/
def DeleteWay (okWay okNodes okData okNavi : Bool) (db : DB)
    (wid : Nat) : Bool × DB :=
  if okWay then
    let db0 := { db with way := db.way.filter (fun r => !(r.way_id == wid)) }
    let r1 := DeleteWayNodes okNodes db0 wid
    if r1.1 then
      let r2 := DeleteWayData okData r1.2 wid
      if r2.1 then DeleteNaviData okNavi r2.2 wid
      else (false, r2.2)
    else (false, r1.2)
  else (false, db)

/-!
## Allocator

The driver evaluation of the two fixed aggregate queries is modelled
from the spec's reading of them: SELECT max(col) returns one row whose
single column is SQL NULL when the table is empty and the maximum
value otherwise; SELECT count(*) on the navi_data_{id} shard table
returns one row holding that shard's row count.
-/

/-- Driver evaluation of SELECT max(way_id) from way. -/
def maxWayId (db : DB) : Option Nat :=
  if db.way.isEmpty then none
  else some ((db.way.map (fun r => r.way_id)).foldl Nat.max 0)

/-- Driver evaluation of SELECT max(navi_table_id) from way_data. -/
def maxNaviTableId (db : DB) : Option Nat :=
  if db.way_data.isEmpty then none
  else some ((db.way_data.map (fun r => r.navi_table_id)).foldl Nat.max 0)

/-- DBOperator::CreateNewWayId: on query success the single result row
is read (NULL means the way table is empty and yields 1, otherwise
max + 1 is stored into the output); on query failure false is returned
and the output parameter p is untouched. -/
def CreateNewWayId (queryOk : Bool) (db : DB) (p : Nat) : Bool × Nat :=
  if queryOk then
    match maxWayId db with
    | none => (true, 1)
    | some m => (true, m + 1)
  else (false, p)

/-- DBOperator::GetNaviTableId: cur_max_table_id is the maximum
navi_table_id of way_data (0 when NULL, i.e. the table is empty); then
the rows of shard table navi_data_{cur_max_table_id} are counted, and
the output is cur_max_table_id when that count is below
kMaxRowNumberOfDBTable and cur_max_table_id + 1 otherwise.  qOk1 and
qOk2 model the success of the two queries; either failure returns
false with the output p untouched. -/
def GetNaviTableId (qOk1 qOk2 : Bool) (db : DB) (p : Nat) : Bool × Nat :=
  if qOk1 then
    let cur := (maxNaviTableId db).getD 0
    if qOk2 then
      (true,
        if db.navi_shard_counts cur < kMaxRowNumberOfDBTable then cur
        else cur + 1)
    else (false, p)
  else (false, p)

/-- The 13 seed rows of the speed_limit table in insertion order. -/
def speedLimitSeedRows : List SpeedLimit :=
  ((List.range 13).map (fun k => k + 1)).map speedLimitRowOf

/-- Sample store whose way table holds way_id 5 and, below it, 3
(used to evaluate the allocator at a concrete input). -/
def dbWays : DB :=
  { emptyDB with
    way := [⟨5, none, none, none, none⟩, ⟨3, none, none, none, none⟩] }

/-- Sample store for shard selection: way_data holds shard id 2 and
the navi_data_2 shard table has 9999 rows. -/
def dbShard9999 : DB :=
  { emptyDB with
    way_data := [⟨1, [], 0, 2⟩]
    navi_shard_counts := fun n => if n = 2 then 9999 else 0 }

/-- Same as dbShard9999 but with a full shard table of 10000 rows. -/
def dbShard10000 : DB :=
  { emptyDB with
    way_data := [⟨1, [], 0, 2⟩]
    navi_shard_counts := fun n => if n = 2 then 10000 else 0 }

/-!
## Lemmas about the transactional insert loop
-/

theorem insertLoop_all_ok {α : Type} (ok : Nat → Bool) (ins : α → DB → DB)
    (l : List α) :
    ∀ (i : Nat) (db : DB), (∀ j, j < l.length → ok (i + j) = true) →
      insertLoop ok ins l i db = (true, l.foldl (fun d a => ins a d) db) := by
  induction l with
  | nil => intro i db _; rfl
  | cons a rest ih =>
    intro i db h
    have h0 : ok i = true := by simpa using h 0 (by simp)
    simp only [insertLoop, h0, if_true, List.foldl_cons]
    exact ih (i + 1) (ins a db) (fun j hj => by
      have hs := h (j + 1) (by simpa using Nat.succ_lt_succ hj)
      have e : i + (j + 1) = i + 1 + j := by omega
      rw [e] at hs
      exact hs)

theorem insertLoop_has_fail {α : Type} (ok : Nat → Bool) (ins : α → DB → DB)
    (l : List α) :
    ∀ (i : Nat) (db : DB), (∃ j, j < l.length ∧ ok (i + j) = false) →
      (insertLoop ok ins l i db).1 = false := by
  induction l with
  | nil =>
    rintro i db ⟨j, hj, _⟩
    simp at hj
  | cons a rest ih =>
    rintro i db ⟨j, hj, hf⟩
    by_cases h0 : ok i = true
    · simp only [insertLoop, h0, if_true]
      apply ih
      cases j with
      | zero =>
        rw [Nat.add_zero, h0] at hf
        cases hf
      | succ j' =>
        refine ⟨j', ?_, ?_⟩
        · have := hj
          simp at this
          omega
        · have e : i + 1 + j' = i + (j' + 1) := by omega
          rw [e]
          exact hf
    · simp at h0
      simp [insertLoop, h0]

theorem insertLoop_true_eq {α : Type} (ok : Nat → Bool) (ins : α → DB → DB)
    (l : List α) :
    ∀ (i : Nat) (db : DB), (insertLoop ok ins l i db).1 = true →
      insertLoop ok ins l i db = (true, l.foldl (fun d a => ins a d) db) := by
  induction l with
  | nil => intro i db _; rfl
  | cons a rest ih =>
    intro i db h
    by_cases h0 : ok i = true
    · simp only [insertLoop, h0, if_true, List.foldl_cons] at h ⊢
      exact ih _ _ h
    · simp at h0
      simp [insertLoop, h0] at h

theorem insertLoop_speed_limit {α : Type} (ok : Nat → Bool) (ins : α → DB → DB)
    (hins : ∀ (a : α) (d : DB), (ins a d).speed_limit = d.speed_limit)
    (l : List α) :
    ∀ (i : Nat) (db : DB),
      ((insertLoop ok ins l i db).2).speed_limit = db.speed_limit := by
  induction l with
  | nil => intro i db; rfl
  | cons a rest ih =>
    intro i db
    by_cases h0 : ok i = true
    · simp only [insertLoop, h0, if_true]
      rw [ih]
      exact hins a db
    · simp at h0
      simp [insertLoop, h0]

theorem foldl_wayNodes_append (wid : Nat) (l : List Node) :
    ∀ db : DB,
      l.foldl (fun d n => { d with way_nodes := d.way_nodes ++ [wayNodesRowOf wid n] }) db
        = { db with way_nodes := db.way_nodes ++ l.map (wayNodesRowOf wid) } := by
  induction l with
  | nil => intro db; simp
  | cons n rest ih =>
    intro db
    simp [List.foldl_cons, ih]

theorem foldl_naviData_append (wid : Nat) (l : List NaviData) :
    ∀ db : DB,
      l.foldl (fun s d => { s with navi_data := s.navi_data ++ [naviDataRowOf wid d] }) db
        = { db with navi_data := db.navi_data ++ l.map (naviDataRowOf wid) } := by
  induction l with
  | nil => intro db; simp
  | cons n rest ih =>
    intro db
    simp [List.foldl_cons, ih]

theorem foldl_speedLimit_append (l : List Nat) :
    ∀ db : DB,
      l.foldl (fun d i => { d with speed_limit := d.speed_limit ++ [speedLimitRowOf i] }) db
        = { db with speed_limit := db.speed_limit ++ l.map speedLimitRowOf } := by
  induction l with
  | nil => intro db; simp
  | cons n rest ih =>
    intro db
    simp [List.foldl_cons, ih]

/-!
## Per-operation transaction lemmas (shared helpers)
-/

theorem saveWayNodes_all_ok (ok : Nat → Bool) (db : DB) (wn : WayNodes)
    (h : ∀ j, j < wn.nodes.length → ok j = true) :
    SaveWayNodes ok db wn =
      (true, { db with way_nodes := db.way_nodes ++ wn.nodes.map (wayNodesRowOf wn.way_id) }) := by
  simp only [SaveWayNodes, runInTransaction]
  rw [insertLoop_all_ok ok _ wn.nodes 0 db (fun j hj => by simpa using h j hj)]
  simp [foldl_wayNodes_append]

theorem saveWayNodes_fail (ok : Nat → Bool) (db : DB) (wn : WayNodes)
    (h : ∃ j, j < wn.nodes.length ∧ ok j = false) :
    SaveWayNodes ok db wn = (false, db) := by
  obtain ⟨j, hj, hf⟩ := h
  have hl := insertLoop_has_fail ok
    (fun n d => { d with way_nodes := d.way_nodes ++ [wayNodesRowOf wn.way_id n] })
    wn.nodes 0 db ⟨j, hj, by simpa using hf⟩
  simp [SaveWayNodes, runInTransaction, hl]

theorem saveNaviData_all_ok (ok : Nat → Bool) (db : DB) (ni : NaviInfo)
    (h : ∀ j, j < ni.navi_data.length → ok j = true) :
    SaveNaviData ok db ni =
      (true, { db with navi_data := db.navi_data ++ ni.navi_data.map (naviDataRowOf ni.way_id) }) := by
  simp only [SaveNaviData, runInTransaction]
  rw [insertLoop_all_ok ok _ ni.navi_data 0 db (fun j hj => by simpa using h j hj)]
  simp [foldl_naviData_append]

theorem saveNaviData_fail (ok : Nat → Bool) (db : DB) (ni : NaviInfo)
    (h : ∃ j, j < ni.navi_data.length ∧ ok j = false) :
    SaveNaviData ok db ni = (false, db) := by
  obtain ⟨j, hj, hf⟩ := h
  have hl := insertLoop_has_fail ok
    (fun d s => { s with navi_data := s.navi_data ++ [naviDataRowOf ni.way_id d] })
    ni.navi_data 0 db ⟨j, hj, by simpa using hf⟩
  simp [SaveNaviData, runInTransaction, hl]

theorem fillTableSpeedLimit_all_ok (ok : Nat → Bool) (db : DB)
    (h : ∀ j, j < 13 → ok j = true) :
    FillTableSpeedLimit ok db =
      (true, { db with speed_limit := db.speed_limit ++ speedLimitSeedRows }) := by
  simp only [FillTableSpeedLimit, runInTransaction]
  rw [insertLoop_all_ok ok _ _ 0 db (fun j hj => by
    have : j < 13 := by simpa using hj
    simpa using h j this)]
  simp [foldl_speedLimit_append, speedLimitSeedRows]

theorem fillTableSpeedLimit_fail (ok : Nat → Bool) (db : DB)
    (h : ∃ j, j < 13 ∧ ok j = false) :
    FillTableSpeedLimit ok db = (false, db) := by
  obtain ⟨j, hj, hf⟩ := h
  have hl := insertLoop_has_fail ok
    (fun i d => { d with speed_limit := d.speed_limit ++ [speedLimitRowOf i] })
    ((List.range 13).map (fun k => k + 1)) 0 db
    ⟨j, by simpa using hj, by simpa using hf⟩
  simp [FillTableSpeedLimit, runInTransaction, hl]

theorem fillTableSpeedLimit_success_state (ok : Nat → Bool) (db : DB)
    (h : (FillTableSpeedLimit ok db).1 = true) :
    FillTableSpeedLimit ok db =
      (true, { db with speed_limit := db.speed_limit ++ speedLimitSeedRows }) := by
  simp only [FillTableSpeedLimit, runInTransaction] at h ⊢
  by_cases hr : (insertLoop ok
      (fun i d => { d with speed_limit := d.speed_limit ++ [speedLimitRowOf i] })
      ((List.range 13).map (fun k => k + 1)) 0 db).1 = true
  · rw [insertLoop_true_eq _ _ _ _ _ hr]
    simp [foldl_speedLimit_append, speedLimitSeedRows]
  · simp [hr] at h

theorem isTableExisting_way_false (catalogOk : Bool) (db : DB)
    (h : "way" ∉ db.tables) : IsTableExisting catalogOk db 1 = false := by
  cases catalogOk with
  | false => simp [IsTableExisting]
  | true =>
    have hcnt : db.tables.countP (fun s => s == kTableNames.getD 1 "") = 0 := by
      rw [List.countP_eq_zero]
      intro s hs hsw
      rw [show kTableNames.getD 1 "" = "way" from rfl, beq_iff_eq] at hsw
      exact h (hsw ▸ hs)
    simp only [IsTableExisting, hcnt]
    simp

theorem isTableExisting_way_true (db : DB) (h : "way" ∈ db.tables) :
    IsTableExisting true db 1 = true := by
  have hcnt : 0 < db.tables.countP (fun s => s == kTableNames.getD 1 "") := by
    rw [List.countP_pos_iff]
    exact ⟨"way", h, by
      rw [show kTableNames.getD 1 "" = "way" from rfl]
      exact beq_self_eq_true "way"⟩
  simp only [IsTableExisting, hcnt]
  simp [Nat.pos_iff_ne_zero] at hcnt ⊢

/-!
## Claim theorems
-/

/-- C1: every multi-row aggregate save (SaveWayNodes over a WayNodes
aggregate, SaveNaviData over a NaviInfo aggregate, and the
FillTableSpeedLimit seed batch) is transactional: if every per-row
insert succeeds the batch is committed (all rows appended) and the
operation returns true; if any per-row insert fails the transaction is
rolled back (the store is exactly the state before the call, no row of
the batch survives) and the operation returns false. -/
theorem saveBatch_transactional (ok : Nat → Bool) (db : DB)
    (wn : WayNodes) (ni : NaviInfo) :
    ((∀ j, j < wn.nodes.length → ok j = true) →
      SaveWayNodes ok db wn =
        (true, { db with way_nodes := db.way_nodes ++ wn.nodes.map (wayNodesRowOf wn.way_id) })) ∧
    ((∃ j, j < wn.nodes.length ∧ ok j = false) →
      SaveWayNodes ok db wn = (false, db)) ∧
    ((∀ j, j < ni.navi_data.length → ok j = true) →
      SaveNaviData ok db ni =
        (true, { db with navi_data := db.navi_data ++ ni.navi_data.map (naviDataRowOf ni.way_id) })) ∧
    ((∃ j, j < ni.navi_data.length ∧ ok j = false) →
      SaveNaviData ok db ni = (false, db)) ∧
    ((∀ j, j < 13 → ok j = true) →
      FillTableSpeedLimit ok db =
        (true, { db with speed_limit := db.speed_limit ++ speedLimitSeedRows })) ∧
    ((∃ j, j < 13 ∧ ok j = false) →
      FillTableSpeedLimit ok db = (false, db)) :=
  ⟨saveWayNodes_all_ok ok db wn,
   saveWayNodes_fail ok db wn,
   saveNaviData_all_ok ok db ni,
   saveNaviData_fail ok db ni,
   fillTableSpeedLimit_all_ok ok db,
   fillTableSpeedLimit_fail ok db⟩

/-- Witness for C1: a two-row WayNodes batch whose second insert fails
leaves the store untouched and reports false; the same for a two-entry
NaviInfo batch and for a seed batch whose sixth insert fails; a fully
successful seed batch reports true. -/
theorem saveBatch_transactional_witness :
    SaveWayNodes (fun j => decide (j = 0)) emptyDB
        ⟨7, [⟨1, 2, "a"⟩, ⟨2, 3, "b"⟩]⟩ = (false, emptyDB) ∧
    SaveNaviData (fun j => decide (j = 0)) emptyDB
        ⟨7, [⟨0, [1]⟩, ⟨1, [2]⟩]⟩ = (false, emptyDB) ∧
    FillTableSpeedLimit (fun j => decide (j < 5)) emptyDB = (false, emptyDB) ∧
    FillTableSpeedLimit (fun _ => true) emptyDB =
      (true, { emptyDB with speed_limit := emptyDB.speed_limit ++ speedLimitSeedRows }) := by
  refine ⟨?_, ?_, ?_, ?_⟩
  · exact (saveBatch_transactional (fun j => decide (j = 0)) emptyDB
      ⟨7, [⟨1, 2, "a"⟩, ⟨2, 3, "b"⟩]⟩ ⟨7, []⟩).2.1 ⟨1, by decide, by decide⟩
  · exact (saveBatch_transactional (fun j => decide (j = 0)) emptyDB
      ⟨7, []⟩ ⟨7, [⟨0, [1]⟩, ⟨1, [2]⟩]⟩).2.2.2.1 ⟨1, by decide, by decide⟩
  · exact (saveBatch_transactional (fun j => decide (j < 5)) emptyDB
      ⟨7, []⟩ ⟨7, []⟩).2.2.2.2.2 ⟨5, by decide, by decide⟩
  · exact (saveBatch_transactional (fun _ => true) emptyDB
      ⟨7, []⟩ ⟨7, []⟩).2.2.2.2.1 (fun j _ => rfl)

/-- C2: InitDatabase returns true immediately without creating
anything when the way table already exists; otherwise it creates the
five tables in the fixed order speed_limit, way, way_nodes, way_data,
navi_data and then seeds the speed_limit table, returns true only when
every one of these six steps succeeds, and short-circuits at the first
failing step, returning false with no later step executed (the state
shows exactly the tables created before the failing step, and an
unseeded speed_limit table unless all five creations succeeded). -/
theorem initDatabase_contract (catalogOk : Bool)
    (createOk seedOk : Nat → Bool) (db : DB) :
    (catalogOk = true → "way" ∈ db.tables →
      InitDatabase catalogOk createOk seedOk db = (true, db)) ∧
    ("way" ∉ db.tables → (∀ t, t < 5 → createOk t = true) →
      (∀ j, j < 13 → seedOk j = true) →
      InitDatabase catalogOk createOk seedOk db =
        (true, { db with
                 tables := db.tables ++ kTableNames
                 speed_limit := db.speed_limit ++ speedLimitSeedRows })) ∧
    (∀ k, k < 5 → "way" ∉ db.tables → (∀ j, j < k → createOk j = true) →
      createOk k = false →
      InitDatabase catalogOk createOk seedOk db =
        (false, { db with tables := db.tables ++ kTableNames.take k })) ∧
    ("way" ∉ db.tables → (∀ t, t < 5 → createOk t = true) →
      (∃ j, j < 13 ∧ seedOk j = false) →
      InitDatabase catalogOk createOk seedOk db =
        (false, { db with tables := db.tables ++ kTableNames })) := by
  refine ⟨?_, ?_, ?_, ?_⟩
  · intro hc hw
    subst hc
    simp [InitDatabase, isTableExisting_way_true db hw]
  · intro hw hc hs
    have hfast := isTableExisting_way_false catalogOk db hw
    have c0 := hc 0 (by omega)
    have c1 := hc 1 (by omega)
    have c2 := hc 2 (by omega)
    have c3 := hc 3 (by omega)
    have c4 := hc 4 (by omega)
    simp only [InitDatabase, hfast, Bool.false_eq_true, if_false]
    simp only [CreateTable, createTableEffect, c0, c1, c2, c3, c4]
    simp only [show (0 : Nat) < 5 from by omega, show (1 : Nat) < 5 from by omega,
      show (2 : Nat) < 5 from by omega, show (3 : Nat) < 5 from by omega,
      show (4 : Nat) < 5 from by omega, if_true]
    rw [fillTableSpeedLimit_all_ok seedOk _ hs]
    simp [kTableNames]
  · intro k hk hw hcl hck
    have hfast := isTableExisting_way_false catalogOk db hw
    interval_cases k
    · simp [InitDatabase, hfast, CreateTable, createTableEffect, hck, kTableNames]
    · have c0 := hcl 0 (by omega)
      simp [InitDatabase, hfast, CreateTable, createTableEffect, c0, hck, kTableNames]
    · have c0 := hcl 0 (by omega)
      have c1 := hcl 1 (by omega)
      simp [InitDatabase, hfast, CreateTable, createTableEffect, c0, c1, hck, kTableNames]
    · have c0 := hcl 0 (by omega)
      have c1 := hcl 1 (by omega)
      have c2 := hcl 2 (by omega)
      simp [InitDatabase, hfast, CreateTable, createTableEffect, c0, c1, c2, hck,
        kTableNames]
    · have c0 := hcl 0 (by omega)
      have c1 := hcl 1 (by omega)
      have c2 := hcl 2 (by omega)
      have c3 := hcl 3 (by omega)
      simp [InitDatabase, hfast, CreateTable, createTableEffect, c0, c1, c2, c3, hck,
        kTableNames]
  · intro hw hc hs
    have hfast := isTableExisting_way_false catalogOk db hw
    have c0 := hc 0 (by omega)
    have c1 := hc 1 (by omega)
    have c2 := hc 2 (by omega)
    have c3 := hc 3 (by omega)
    have c4 := hc 4 (by omega)
    simp only [InitDatabase, hfast, Bool.false_eq_true, if_false]
    simp only [CreateTable, createTableEffect, c0, c1, c2, c3, c4]
    simp only [show (0 : Nat) < 5 from by omega, show (1 : Nat) < 5 from by omega,
      show (2 : Nat) < 5 from by omega, show (3 : Nat) < 5 from by omega,
      show (4 : Nat) < 5 from by omega, if_true]
    rw [fillTableSpeedLimit_fail seedOk _ hs]
    simp [kTableNames]

/-- Witness for C2: on a store already holding the way table the call
is an identity returning true; on an empty store a fully successful
run creates the five tables and the seed and returns true; a run whose
creation of table index 2 fails stops after creating speed_limit and
way and returns false; a run whose seventh seed insert fails creates
the five tables, leaves speed_limit unseeded and returns false. -/
theorem initDatabase_contract_witness :
    InitDatabase true (fun _ => true) (fun _ => true)
        { emptyDB with tables := ["way"] } =
      (true, { emptyDB with tables := ["way"] }) ∧
    InitDatabase true (fun _ => true) (fun _ => true) emptyDB =
      (true, { emptyDB with
               tables := emptyDB.tables ++ kTableNames
               speed_limit := emptyDB.speed_limit ++ speedLimitSeedRows }) ∧
    InitDatabase true (fun t => decide (t < 2)) (fun _ => true) emptyDB =
      (false, { emptyDB with tables := emptyDB.tables ++ kTableNames.take 2 }) ∧
    InitDatabase true (fun _ => true) (fun j => decide (j < 6)) emptyDB =
      (false, { emptyDB with tables := emptyDB.tables ++ kTableNames }) := by
  refine ⟨?_, ?_, ?_, ?_⟩
  · exact (initDatabase_contract true (fun _ => true) (fun _ => true)
      { emptyDB with tables := ["way"] }).1 rfl (by simp)
  · exact (initDatabase_contract true (fun _ => true) (fun _ => true)
      emptyDB).2.1 (by simp [emptyDB]) (fun t _ => rfl) (fun j _ => rfl)
  · exact (initDatabase_contract true (fun t => decide (t < 2)) (fun _ => true)
      emptyDB).2.2.1 2 (by omega) (by simp [emptyDB])
      (fun j hj => decide_eq_true hj) (by decide)
  · exact (initDatabase_contract true (fun _ => true) (fun j => decide (j < 6))
      emptyDB).2.2.2 (by simp [emptyDB]) (fun t _ => rfl)
      ⟨6, by decide, by decide⟩

theorem wayOfRow_wayRowOf (w : Way) : wayOfRow (wayRowOf w) = w := by
  obtain ⟨a, b, c, d, e⟩ := w
  simp only [wayRowOf, wayOfRow]
  by_cases hb : b = 0 <;> by_cases hc : c = 0 <;> simp [hb, hc]

theorem filter_map_update (wid : Nat) (upd : WayRow → WayRow)
    (hupd : ∀ r, (upd r).way_id = r.way_id) (l : List WayRow) :
    (l.map (fun r => if r.way_id == wid then upd r else r)).filter
        (fun r => r.way_id == wid) =
      (l.filter (fun r => r.way_id == wid)).map upd := by
  induction l with
  | nil => rfl
  | cons r rest ih =>
    by_cases h : r.way_id = wid
    · simpa [List.filter_cons, List.map_cons, h, hupd] using ih
    · simpa [List.filter_cons, List.map_cons, h] using ih

theorem saveWay_filter (db : DB) (w : Way)
    (h : db.way.filter (fun r => r.way_id == w.way_id) = []) :
    (SaveWay true db w).2.way.filter (fun r => r.way_id == w.way_id) =
      [wayRowOf w] := by
  show (db.way ++ [wayRowOf w]).filter (fun r => r.way_id == w.way_id) =
    [wayRowOf w]
  rw [List.filter_append, h]
  simp [wayRowOf]

theorem updateWay_filter (db : DB) (wid : Nat) (w : Way) :
    (UpdateWay true db wid w).2.way.filter (fun r => r.way_id == wid) =
      (db.way.filter (fun r => r.way_id == wid)).map (fun r =>
        { r with
          pre_way_id := if w.pre_way_id = 0 then none else some w.pre_way_id
          next_way_id := if w.next_way_id = 0 then none else some w.next_way_id
          speed_min := some w.speed_min
          speed_max := some w.speed_max }) := by
  have h := filter_map_update wid (fun r =>
    { r with
      pre_way_id := if w.pre_way_id = 0 then none else some w.pre_way_id
      next_way_id := if w.next_way_id = 0 then none else some w.next_way_id
      speed_min := some w.speed_min
      speed_max := some w.speed_max })
    (fun r => rfl) db.way
  exact h

/-- C3: SaveWay and UpdateWay bind pre_way_id and next_way_id as SQL
NULL exactly when the field is 0 and as the literal value otherwise,
and QueryWayWithWayId decodes a stored NULL in those columns back to
0; saving a Way and reading it back by way_id therefore round-trips
pre_way_id and next_way_id in both directions (sentinel 0 through
NULL, non-zero through the literal value). -/
theorem way_nullable_roundtrip (db : DB) (w w0 : Way)
    (h : db.way.filter (fun r => r.way_id == w.way_id) = []) :
    QueryWayWithWayId true (SaveWay true db w).2 w.way_id w0 = (true, w) ∧
    ((SaveWay true db w).2.way.filter (fun r => r.way_id == w.way_id)).map
        (fun r => r.pre_way_id) =
      [if w.pre_way_id = 0 then none else some w.pre_way_id] ∧
    ((SaveWay true db w).2.way.filter (fun r => r.way_id == w.way_id)).map
        (fun r => r.next_way_id) =
      [if w.next_way_id = 0 then none else some w.next_way_id] ∧
    (∀ (db2 : DB) (wid : Nat),
      ((UpdateWay true db2 wid w).2.way.filter (fun r => r.way_id == wid)).map
          (fun r => r.pre_way_id) =
        (db2.way.filter (fun r => r.way_id == wid)).map
          (fun _ => if w.pre_way_id = 0 then none else some w.pre_way_id)) ∧
    (∀ (db2 : DB) (r : WayRow) (wid : Nat) (w1 : Way),
      db2.way.filter (fun x => x.way_id == wid) = [r] →
      r.pre_way_id = none → r.next_way_id = none →
      (QueryWayWithWayId true db2 wid w1).2.pre_way_id = 0 ∧
      (QueryWayWithWayId true db2 wid w1).2.next_way_id = 0) := by
  refine ⟨?_, ?_, ?_, ?_, ?_⟩
  · simp [QueryWayWithWayId, saveWay_filter db w h, overwriteReadLoop,
      wayOfRow_wayRowOf]
  · simp [saveWay_filter db w h, wayRowOf]
  · simp [saveWay_filter db w h, wayRowOf]
  · intro db2 wid
    rw [updateWay_filter, List.map_map]
    rfl
  · intro db2 r wid w1 hfil hpre hnext
    simp [QueryWayWithWayId, hfil, overwriteReadLoop, wayOfRow, hpre, hnext]

/-- Witness for C3: on an empty store, a way with pre_way_id = 0 and
next_way_id = 5 reads back unchanged, and so does a way with
pre_way_id = 7 and next_way_id = 0. -/
theorem way_nullable_roundtrip_witness :
    QueryWayWithWayId true (SaveWay true emptyDB ⟨1, 0, 5, 2, 3⟩).2 1
        ⟨0, 0, 0, 0, 0⟩ = (true, ⟨1, 0, 5, 2, 3⟩) ∧
    QueryWayWithWayId true (SaveWay true emptyDB ⟨2, 7, 0, 2, 3⟩).2 2
        ⟨0, 0, 0, 0, 0⟩ = (true, ⟨2, 7, 0, 2, 3⟩) :=
  ⟨(way_nullable_roundtrip emptyDB ⟨1, 0, 5, 2, 3⟩ ⟨0, 0, 0, 0, 0⟩ rfl).1,
   (way_nullable_roundtrip emptyDB ⟨2, 7, 0, 2, 3⟩ ⟨0, 0, 0, 0, 0⟩ rfl).1⟩

/-- C9: the sentinel-to-NULL mapping is asymmetric for the speed
fields: QueryWayWithWayId decodes a stored NULL in speed_min /
speed_max to 0 on read, but SaveWay and UpdateWay always bind
speed_min and speed_max as the literal value — even when it is 0 they
are stored as the value 0, never as SQL NULL (unlike
pre_way_id / next_way_id). -/
theorem speed_fields_literal_binding (db : DB) (w : Way)
    (h : db.way.filter (fun r => r.way_id == w.way_id) = []) :
    ((SaveWay true db w).2.way.filter (fun r => r.way_id == w.way_id)).map
        (fun r => r.speed_min) = [some w.speed_min] ∧
    ((SaveWay true db w).2.way.filter (fun r => r.way_id == w.way_id)).map
        (fun r => r.speed_max) = [some w.speed_max] ∧
    (w.speed_min = 0 →
      ((SaveWay true db w).2.way.filter (fun r => r.way_id == w.way_id)).map
          (fun r => r.speed_min) = [some 0]) ∧
    (∀ (db2 : DB) (wid : Nat),
      ((UpdateWay true db2 wid w).2.way.filter (fun r => r.way_id == wid)).map
          (fun r => r.speed_min) =
        (db2.way.filter (fun r => r.way_id == wid)).map
          (fun _ => some w.speed_min)) ∧
    (∀ (db2 : DB) (r : WayRow) (wid : Nat) (w1 : Way),
      db2.way.filter (fun x => x.way_id == wid) = [r] →
      r.speed_min = none → r.speed_max = none →
      (QueryWayWithWayId true db2 wid w1).2.speed_min = 0 ∧
      (QueryWayWithWayId true db2 wid w1).2.speed_max = 0) := by
  refine ⟨?_, ?_, ?_, ?_, ?_⟩
  · simp [saveWay_filter db w h, wayRowOf]
  · simp [saveWay_filter db w h, wayRowOf]
  · intro h0
    simp [saveWay_filter db w h, wayRowOf, h0]
  · intro db2 wid
    rw [updateWay_filter, List.map_map]
    rfl
  · intro db2 r wid w1 hfil hmin hmax
    simp [QueryWayWithWayId, hfil, overwriteReadLoop, wayOfRow, hmin, hmax]

/-- Witness for C9: a way with speed_min = 0 saved into an empty
store keeps a literal 0 (not NULL) in the speed_min column. -/
theorem speed_fields_literal_binding_witness :
    ((SaveWay true emptyDB ⟨1, 0, 0, 0, 9⟩).2.way.filter
        (fun r => r.way_id == 1)).map (fun r => r.speed_min) = [some 0] :=
  ((speed_fields_literal_binding emptyDB ⟨1, 0, 0, 0, 9⟩ rfl).2.2.1) rfl

theorem le_foldl_max_init (l : List Nat) : ∀ a : Nat, a ≤ l.foldl Nat.max a := by
  induction l with
  | nil => intro a; exact Nat.le_refl a
  | cons x xs ih =>
    intro a
    rw [List.foldl_cons]
    exact Nat.le_trans (Nat.le_max_left a x) (ih (Nat.max a x))

theorem le_foldl_max_mem (l : List Nat) :
    ∀ (a x : Nat), x ∈ l → x ≤ l.foldl Nat.max a := by
  induction l with
  | nil => intro a x hx; cases hx
  | cons y ys ih =>
    intro a x hx
    rw [List.foldl_cons]
    rcases List.mem_cons.mp hx with hxy | hmem
    · subst hxy
      exact Nat.le_trans (Nat.le_max_right a x) (le_foldl_max_init ys (Nat.max a x))
    · exact ih (Nat.max a y) x hmem

theorem foldl_max_mem (l : List Nat) :
    ∀ a : Nat, l.foldl Nat.max a = a ∨ l.foldl Nat.max a ∈ l := by
  induction l with
  | nil => intro a; exact Or.inl rfl
  | cons x xs ih =>
    intro a
    rw [List.foldl_cons]
    rcases ih (Nat.max a x) with h | h
    · rcases Nat.le_total a x with hax | hxa
      · exact Or.inr (List.mem_cons.mpr (Or.inl (h.trans (Nat.max_eq_right hax))))
      · exact Or.inl (h.trans (Nat.max_eq_left hxa))
    · exact Or.inr (List.mem_cons.mpr (Or.inr h))

theorem maxWayId_spec (db : DB) (hne : db.way ≠ []) :
    ∃ m, maxWayId db = some m ∧ (∃ r ∈ db.way, r.way_id = m) ∧
      ∀ r ∈ db.way, r.way_id ≤ m := by
  have hie : db.way.isEmpty = false := by
    simpa [List.isEmpty_iff] using hne
  refine ⟨(db.way.map (fun r => r.way_id)).foldl Nat.max 0, ?_, ?_, ?_⟩
  · simp [maxWayId, hie]
  · rcases foldl_max_mem (db.way.map (fun r => r.way_id)) 0 with h0 | hmem
    · obtain ⟨r0, hr0⟩ := List.exists_mem_of_ne_nil db.way hne
      refine ⟨r0, hr0, ?_⟩
      have hle : r0.way_id ≤ (db.way.map (fun r => r.way_id)).foldl Nat.max 0 :=
        le_foldl_max_mem _ 0 _ (List.mem_map_of_mem _ hr0)
      omega
    · obtain ⟨r, hr, hid⟩ := List.mem_map.mp hmem
      exact ⟨r, hr, hid⟩
  · intro r hr
    exact le_foldl_max_mem _ 0 _ (List.mem_map_of_mem _ hr)

theorem maxNaviTableId_spec (db : DB) (hne : db.way_data ≠ []) :
    ∃ m, maxNaviTableId db = some m ∧
      (∃ r ∈ db.way_data, r.navi_table_id = m) ∧
      ∀ r ∈ db.way_data, r.navi_table_id ≤ m := by
  have hie : db.way_data.isEmpty = false := by
    simpa [List.isEmpty_iff] using hne
  refine ⟨(db.way_data.map (fun r => r.navi_table_id)).foldl Nat.max 0, ?_, ?_, ?_⟩
  · simp [maxNaviTableId, hie]
  · rcases foldl_max_mem (db.way_data.map (fun r => r.navi_table_id)) 0 with h0 | hmem
    · obtain ⟨r0, hr0⟩ := List.exists_mem_of_ne_nil db.way_data hne
      refine ⟨r0, hr0, ?_⟩
      have hle : r0.navi_table_id ≤
          (db.way_data.map (fun r => r.navi_table_id)).foldl Nat.max 0 :=
        le_foldl_max_mem _ 0 _ (List.mem_map_of_mem _ hr0)
      omega
    · obtain ⟨r, hr, hid⟩ := List.mem_map.mp hmem
      exact ⟨r, hr, hid⟩
  · intro r hr
    exact le_foldl_max_mem _ 0 _ (List.mem_map_of_mem _ hr)

/-- C4: CreateNewWayId computes max(way_id) over the way table and
stores 1 into the output when the table is empty (the maximum is
NULL), and max + 1 otherwise — the maximum is an actual way_id of the
table and an upper bound of all of them, regardless of which other
ids exist below it; the operation returns false only on a query
failure (in which case the output parameter is untouched). -/
theorem createNewWayId_spec (db : DB) (p : Nat) :
    (db.way = [] → CreateNewWayId true db p = (true, 1)) ∧
    (db.way ≠ [] →
      ∃ m, (∃ r ∈ db.way, r.way_id = m) ∧ (∀ r ∈ db.way, r.way_id ≤ m) ∧
        CreateNewWayId true db p = (true, m + 1)) ∧
    CreateNewWayId false db p = (false, p) := by
  refine ⟨?_, ?_, rfl⟩
  · intro he
    simp [CreateNewWayId, maxWayId, he]
  · intro hne
    obtain ⟨m, hm, hmem, hub⟩ := maxWayId_spec db hne
    exact ⟨m, hmem, hub, by simp [CreateNewWayId, hm]⟩

/-- Witness for C4: on an empty way table the next id is 1; on a way
table holding ids 5 and 3 the maximum 5 is attained and bounds both
rows and the next id is 6. -/
theorem createNewWayId_spec_witness :
    CreateNewWayId true emptyDB 7 = (true, 1) ∧
    (∃ m, (∃ r ∈ dbWays.way, r.way_id = m) ∧
      (∀ r ∈ dbWays.way, r.way_id ≤ m) ∧
      CreateNewWayId true dbWays 7 = (true, m + 1)) :=
  ⟨(createNewWayId_spec emptyDB 7).1 rfl,
   (createNewWayId_spec dbWays 7).2.1 (by simp [dbWays, emptyDB])⟩

/-- C5: GetNaviTableId determines cur_max_table_id as the maximum
navi_table_id in way_data (0 when that table is empty), counts the
rows of the shard table navi_data_{cur_max_table_id}, and stores
cur_max_table_id when that count is strictly below 10000 and
cur_max_table_id + 1 otherwise; with cur_max_table_id = 2 it yields 2
at a shard row count of 9999 and 3 at 10000; either query failing
returns false with the output untouched. -/
theorem getNaviTableId_spec (db : DB) (p : Nat) :
    (∃ cur,
      ((db.way_data = [] ∧ cur = 0) ∨
        ((∃ r ∈ db.way_data, r.navi_table_id = cur) ∧
          ∀ r ∈ db.way_data, r.navi_table_id ≤ cur)) ∧
      GetNaviTableId true true db p =
        (true, if db.navi_shard_counts cur < kMaxRowNumberOfDBTable then cur
          else cur + 1)) ∧
    (∀ q2 : Bool, GetNaviTableId false q2 db p = (false, p)) ∧
    GetNaviTableId true false db p = (false, p) ∧
    ((maxNaviTableId db).getD 0 = 2 → db.navi_shard_counts 2 = 9999 →
      GetNaviTableId true true db p = (true, 2)) ∧
    ((maxNaviTableId db).getD 0 = 2 → db.navi_shard_counts 2 = 10000 →
      GetNaviTableId true true db p = (true, 3)) := by
  refine ⟨?_, fun q2 => rfl, rfl, ?_, ?_⟩
  · by_cases hne : db.way_data = []
    · refine ⟨0, Or.inl ⟨hne, rfl⟩, ?_⟩
      simp [GetNaviTableId, maxNaviTableId, hne]
    · obtain ⟨m, hm, hmem, hub⟩ := maxNaviTableId_spec db hne
      refine ⟨m, Or.inr ⟨hmem, hub⟩, ?_⟩
      simp [GetNaviTableId, hm]
  · intro h2 h9
    simp [GetNaviTableId, h2, h9, kMaxRowNumberOfDBTable]
  · intro h2 h10
    simp [GetNaviTableId, h2, h10, kMaxRowNumberOfDBTable]

/-- Witness for C5: with the maximum shard id 2 recorded in way_data,
a shard row count of 9999 selects shard 2 and a count of 10000 moves
to shard 3. -/
theorem getNaviTableId_spec_witness :
    GetNaviTableId true true dbShard9999 0 = (true, 2) ∧
    GetNaviTableId true true dbShard10000 0 = (true, 3) :=
  ⟨(getNaviTableId_spec dbShard9999 0).2.2.2.1 rfl rfl,
   (getNaviTableId_spec dbShard10000 0).2.2.2.2 rfl rfl⟩

theorem appendReadLoop_eq {α β : Type} (f : α → β) (l : List α) :
    ∀ (res : Bool) (acc : List β),
      appendReadLoop f l res acc = ((res || !l.isEmpty), acc ++ l.map f) := by
  induction l with
  | nil => intro res acc; simp [appendReadLoop]
  | cons r rest ih =>
    intro res acc
    simp [appendReadLoop, ih]

theorem overwriteReadLoop_true {α β : Type} (f : α → β) :
    ∀ (l : List α) (res : Bool) (out : β), l ≠ [] →
      (overwriteReadLoop f l res out).1 = true := by
  intro l
  induction l with
  | nil => intro res out h; cases h rfl
  | cons r rest ih =>
    intro res out _
    cases rest with
    | nil => rfl
    | cons s ss =>
      show (overwriteReadLoop f (s :: ss) true (f r)).1 = true
      exact ih true (f r) (by simp)

/-- C6: each Query-by-way-id operation returns true exactly when at
least one row matched the given way_id; when the query executes but
matches zero rows, the operation returns false and the caller's
output parameter is returned untouched. -/
theorem query_true_iff_row_read (db : DB) (wid : Nat) (w : Way)
    (wn : WayNodes) (wd : WayData) (out : List NaviData) :
    ((QueryWayWithWayId true db wid w).1 = true ↔
      db.way.filter (fun r => r.way_id == wid) ≠ []) ∧
    (db.way.filter (fun r => r.way_id == wid) = [] →
      QueryWayWithWayId true db wid w = (false, w)) ∧
    ((QueryWayNodesWithWayId true db wid wn).1 = true ↔
      db.way_nodes.filter (fun r => r.way_id == wid) ≠ []) ∧
    (db.way_nodes.filter (fun r => r.way_id == wid) = [] →
      QueryWayNodesWithWayId true db wid wn = (false, wn)) ∧
    ((QueryWayDataWithWayId true db wid wd).1 = true ↔
      db.way_data.filter (fun r => r.way_id == wid) ≠ []) ∧
    (db.way_data.filter (fun r => r.way_id == wid) = [] →
      QueryWayDataWithWayId true db wid wd = (false, wd)) ∧
    ((QueryNaviDataWithWayId true db wid out).1 = true ↔
      db.navi_data.filter (fun r => r.way_id == wid) ≠ []) ∧
    (db.navi_data.filter (fun r => r.way_id == wid) = [] →
      QueryNaviDataWithWayId true db wid out = (false, out)) := by
  refine ⟨?_, ?_, ?_, ?_, ?_, ?_, ?_, ?_⟩
  · rcases hrows : db.way.filter (fun r => r.way_id == wid) with _ | ⟨r, rs⟩
    · simp [QueryWayWithWayId, hrows, overwriteReadLoop]
    · simp [QueryWayWithWayId, hrows]
      exact overwriteReadLoop_true wayOfRow (r :: rs) false w (by simp)
  · intro hrows
    simp [QueryWayWithWayId, hrows, overwriteReadLoop]
  · simp only [QueryWayNodesWithWayId, if_true, appendReadLoop_eq]
    rcases hrows : db.way_nodes.filter (fun r => r.way_id == wid) with _ | ⟨r, rs⟩
    · simp
    · simp
  · intro hrows
    simp [QueryWayNodesWithWayId, hrows, appendReadLoop_eq]
  · rcases hrows : db.way_data.filter (fun r => r.way_id == wid) with _ | ⟨r, rs⟩
    · simp [QueryWayDataWithWayId, hrows, overwriteReadLoop]
    · simp [QueryWayDataWithWayId, hrows]
      exact overwriteReadLoop_true wayDataOfRow (r :: rs) false wd (by simp)
  · intro hrows
    simp [QueryWayDataWithWayId, hrows, overwriteReadLoop]
  · simp [QueryNaviDataWithWayId, appendReadLoop_eq]
  · intro hrows
    simp [QueryNaviDataWithWayId, hrows, appendReadLoop_eq]

/-- Witness for C6: on the sample store, querying the absent way_id 9
returns false from all four queries and leaves the outputs untouched,
and querying the present way_id 5 returns true from the way query. -/
theorem query_true_iff_row_read_witness :
    QueryWayWithWayId true dbWays 9 ⟨4, 4, 4, 4, 4⟩ = (false, ⟨4, 4, 4, 4, 4⟩) ∧
    QueryWayNodesWithWayId true dbWays 9 ⟨4, [⟨1, 1, "x"⟩]⟩ =
      (false, ⟨4, [⟨1, 1, "x"⟩]⟩) ∧
    QueryWayDataWithWayId true dbWays 9 ⟨4, [1], 1, 1⟩ =
      (false, ⟨4, [1], 1, 1⟩) ∧
    QueryNaviDataWithWayId true dbWays 9 [⟨1, [2]⟩] = (false, [⟨1, [2]⟩]) ∧
    (QueryWayWithWayId true dbWays 5 ⟨4, 4, 4, 4, 4⟩).1 = true := by
  refine ⟨?_, ?_, ?_, ?_, ?_⟩
  · exact (query_true_iff_row_read dbWays 9 ⟨4, 4, 4, 4, 4⟩ ⟨4, [⟨1, 1, "x"⟩]⟩
      ⟨4, [1], 1, 1⟩ [⟨1, [2]⟩]).2.1 (by decide)
  · exact (query_true_iff_row_read dbWays 9 ⟨4, 4, 4, 4, 4⟩ ⟨4, [⟨1, 1, "x"⟩]⟩
      ⟨4, [1], 1, 1⟩ [⟨1, [2]⟩]).2.2.2.1 (by decide)
  · exact (query_true_iff_row_read dbWays 9 ⟨4, 4, 4, 4, 4⟩ ⟨4, [⟨1, 1, "x"⟩]⟩
      ⟨4, [1], 1, 1⟩ [⟨1, [2]⟩]).2.2.2.2.2.1 (by decide)
  · exact (query_true_iff_row_read dbWays 9 ⟨4, 4, 4, 4, 4⟩ ⟨4, [⟨1, 1, "x"⟩]⟩
      ⟨4, [1], 1, 1⟩ [⟨1, [2]⟩]).2.2.2.2.2.2.2 (by decide)
  · exact (query_true_iff_row_read dbWays 5 ⟨4, 4, 4, 4, 4⟩ ⟨4, [⟨1, 1, "x"⟩]⟩
      ⟨4, [1], 1, 1⟩ [⟨1, [2]⟩]).1.mpr (by decide)

/-- C10: the list-returning QueryNaviDataWithWayId appends the matched
rows to the caller-supplied output vector without clearing it first:
the final vector is exactly the old contents followed by the decoded
matching rows (so pre-existing elements are preserved in place). -/
theorem queryNaviData_appends (db : DB) (wid : Nat) (out : List NaviData) :
    QueryNaviDataWithWayId true db wid out =
      (!(db.navi_data.filter (fun r => r.way_id == wid)).isEmpty,
        out ++ (db.navi_data.filter (fun r => r.way_id == wid)).map
          naviDataOfRow) := by
  simp [QueryNaviDataWithWayId, appendReadLoop_eq]

theorem runInTransaction_speed_limit {α : Type} (ok : Nat → Bool)
    (ins : α → DB → DB) (hins : ∀ a d, (ins a d).speed_limit = d.speed_limit)
    (items : List α) (db : DB) :
    (runInTransaction ok ins items db).2.speed_limit = db.speed_limit := by
  simp only [runInTransaction]
  by_cases hr : (insertLoop ok ins items 0 db).1 = true
  · simp [hr, insertLoop_speed_limit ok ins hins items 0 db]
  · simp at hr
    simp [hr]

theorem saveWayNodes_speed_limit (ok : Nat → Bool) (db2 : DB) (wn : WayNodes) :
    (SaveWayNodes ok db2 wn).2.speed_limit = db2.speed_limit :=
  runInTransaction_speed_limit ok
    (fun n d => { d with way_nodes := d.way_nodes ++ [wayNodesRowOf wn.way_id n] })
    (fun _ _ => rfl) wn.nodes db2

theorem saveNaviData_speed_limit (ok : Nat → Bool) (db2 : DB) (ni : NaviInfo) :
    (SaveNaviData ok db2 ni).2.speed_limit = db2.speed_limit :=
  runInTransaction_speed_limit ok
    (fun d s => { s with navi_data := s.navi_data ++ [naviDataRowOf ni.way_id d] })
    (fun _ _ => rfl) ni.navi_data db2

/-- C7: after a successful initialization of a fresh store (one whose
way table does not yet exist and whose speed_limit table is empty),
the speed_limit table contains exactly the 13 rows (i, 30 + 10*(i-1))
for i = 1..13, and no other operation of the component (any save,
update or delete; the queries do not write at all) ever changes the
speed_limit table. -/
theorem speedLimit_seed_exact_and_immutable (db : DB) (catalogOk : Bool)
    (createOk seedOk : Nat → Bool)
    (h1 : db.speed_limit = []) (hw : "way" ∉ db.tables)
    (h2 : (InitDatabase catalogOk createOk seedOk db).1 = true) :
    (InitDatabase catalogOk createOk seedOk db).2.speed_limit =
      [⟨1, 30⟩, ⟨2, 40⟩, ⟨3, 50⟩, ⟨4, 60⟩, ⟨5, 70⟩, ⟨6, 80⟩, ⟨7, 90⟩,
       ⟨8, 100⟩, ⟨9, 110⟩, ⟨10, 120⟩, ⟨11, 130⟩, ⟨12, 140⟩, ⟨13, 150⟩] ∧
    (∀ (e : Bool) (db2 : DB) (w : Way),
      (SaveWay e db2 w).2.speed_limit = db2.speed_limit) ∧
    (∀ (ok : Nat → Bool) (db2 : DB) (wn : WayNodes),
      (SaveWayNodes ok db2 wn).2.speed_limit = db2.speed_limit) ∧
    (∀ (e : Bool) (db2 : DB) (wd : WayData),
      (SaveWayData e db2 wd).2.speed_limit = db2.speed_limit) ∧
    (∀ (ok : Nat → Bool) (db2 : DB) (ni : NaviInfo),
      (SaveNaviData ok db2 ni).2.speed_limit = db2.speed_limit) ∧
    (∀ (e : Bool) (db2 : DB) (wid : Nat) (w : Way),
      (UpdateWay e db2 wid w).2.speed_limit = db2.speed_limit) ∧
    (∀ (e : Bool) (db2 : DB) (wid smin smax : Nat),
      (UpdateWaySpeedLimit e db2 wid smin smax).2.speed_limit = db2.speed_limit) ∧
    (∀ (e : Bool) (ok : Nat → Bool) (db2 : DB) (wid : Nat) (wn : WayNodes),
      (UpdateWayNodes e ok db2 wid wn).2.speed_limit = db2.speed_limit) ∧
    (∀ (e : Bool) (db2 : DB) (wid : Nat) (wd : WayData),
      (UpdateWayData e db2 wid wd).2.speed_limit = db2.speed_limit) ∧
    (∀ (e : Bool) (ok : Nat → Bool) (db2 : DB) (wid : Nat) (ni : NaviInfo),
      (UpdateNaviData e ok db2 wid ni).2.speed_limit = db2.speed_limit) ∧
    (∀ (e1 e2 e3 e4 : Bool) (db2 : DB) (wid : Nat),
      (DeleteWay e1 e2 e3 e4 db2 wid).2.speed_limit = db2.speed_limit) ∧
    (∀ (e : Bool) (db2 : DB) (wid : Nat),
      (DeleteWayNodes e db2 wid).2.speed_limit = db2.speed_limit) ∧
    (∀ (e : Bool) (db2 : DB) (wid : Nat),
      (DeleteWayData e db2 wid).2.speed_limit = db2.speed_limit) ∧
    (∀ (e : Bool) (db2 : DB) (wid : Nat),
      (DeleteNaviData e db2 wid).2.speed_limit = db2.speed_limit) := by
  have hfast := isTableExisting_way_false catalogOk db hw
  refine ⟨?_, ?_, ?_, ?_, ?_, ?_, ?_, ?_, ?_, ?_, ?_, ?_, ?_, ?_⟩
  · by_cases c0 : createOk 0 = true
    case neg =>
      simp at c0
      simp [InitDatabase, hfast, CreateTable, c0] at h2
    by_cases c1 : createOk 1 = true
    case neg =>
      simp at c1
      simp [InitDatabase, hfast, CreateTable, c0, c1] at h2
    by_cases c2 : createOk 2 = true
    case neg =>
      simp at c2
      simp [InitDatabase, hfast, CreateTable, c0, c1, c2] at h2
    by_cases c3 : createOk 3 = true
    case neg =>
      simp at c3
      simp [InitDatabase, hfast, CreateTable, c0, c1, c2, c3] at h2
    by_cases c4 : createOk 4 = true
    case neg =>
      simp at c4
      simp [InitDatabase, hfast, CreateTable, c0, c1, c2, c3, c4] at h2
    simp only [InitDatabase, hfast, Bool.false_eq_true, if_false] at h2 ⊢
    simp only [CreateTable, createTableEffect, c0, c1, c2, c3, c4] at h2 ⊢
    simp only [show (0 : Nat) < 5 from by omega, show (1 : Nat) < 5 from by omega,
      show (2 : Nat) < 5 from by omega, show (3 : Nat) < 5 from by omega,
      show (4 : Nat) < 5 from by omega, if_true] at h2 ⊢
    rw [fillTableSpeedLimit_success_state seedOk _ h2]
    simp [h1]
    rfl
  · intro e db2 w
    cases e <;> simp [SaveWay]
  · intro ok db2 wn
    exact saveWayNodes_speed_limit ok db2 wn
  · intro e db2 wd
    cases e <;> simp [SaveWayData]
  · intro ok db2 ni
    exact saveNaviData_speed_limit ok db2 ni
  · intro e db2 wid w
    cases e <;> simp [UpdateWay]
  · intro e db2 wid smin smax
    cases e <;> simp [UpdateWaySpeedLimit]
  · intro e ok db2 wid wn
    cases e <;> simp [UpdateWayNodes, DeleteWayNodes, saveWayNodes_speed_limit]
  · intro e db2 wid wd
    cases e <;> simp [UpdateWayData]
  · intro e ok db2 wid ni
    cases e <;> simp [UpdateNaviData, DeleteNaviData, saveNaviData_speed_limit]
  · intro e1 e2 e3 e4 db2 wid
    cases e1 <;> cases e2 <;> cases e3 <;> cases e4 <;>
      simp [DeleteWay, DeleteWayNodes, DeleteWayData, DeleteNaviData]
  · intro e db2 wid
    cases e <;> simp [DeleteWayNodes]
  · intro e db2 wid
    cases e <;> simp [DeleteWayData]
  · intro e db2 wid
    cases e <;> simp [DeleteNaviData]

/-- Witness for C7: a fully successful initialization of the empty
store seeds exactly the 13 rows (1,30) .. (13,150). -/
theorem speedLimit_seed_exact_and_immutable_witness :
    (InitDatabase true (fun _ => true) (fun _ => true) emptyDB).2.speed_limit =
      [⟨1, 30⟩, ⟨2, 40⟩, ⟨3, 50⟩, ⟨4, 60⟩, ⟨5, 70⟩, ⟨6, 80⟩, ⟨7, 90⟩,
       ⟨8, 100⟩, ⟨9, 110⟩, ⟨10, 120⟩, ⟨11, 130⟩, ⟨12, 140⟩, ⟨13, 150⟩] :=
  (speedLimit_seed_exact_and_immutable emptyDB true (fun _ => true)
    (fun _ => true) rfl (by simp [emptyDB]) rfl).1

/-- C8 counterexample: the claim states that for an out-of-range table
index CreateTable fails (returns false); at the concrete out-of-range
index 5 on the empty store, CreateTable runs no schema-affecting
statement but returns true, refuting the claim as stated. -/
theorem createTable_out_of_range_cex :
    CreateTable true emptyDB 5 = (true, emptyDB) := rfl

/-- C8 (amended): for every valid table index, CreateTable (with its
DDL statement succeeding) followed by IsTableExisting returns true;
for an out-of-range index IsTableExisting fails (returns false)
without crashing, while CreateTable runs no schema-affecting
statement (the store is unchanged) but reports success — it returns
true, not false. -/
theorem createTable_tableExists (db : DB) (t : Nat) :
    (t < 5 → IsTableExisting true (CreateTable true db t).2 t = true) ∧
    (5 ≤ t → IsTableExisting true db t = false ∧
      ∀ e : Bool, CreateTable e db t = (true, db)) := by
  constructor
  · intro ht
    have hct : (CreateTable true db t).2 = createTableEffect t db := by
      simp [CreateTable, ht]
    rw [hct]
    simp only [IsTableExisting, createTableEffect]
    rw [if_neg (by omega)]
    rw [if_pos trivial]
    rw [decide_eq_true_iff]
    rw [List.countP_append]
    have hone : List.countP (fun s => s == kTableNames.getD t "")
        [kTableNames.getD t ""] = 1 := by
      simp [List.countP_cons]
    omega
  · intro ht
    refine ⟨?_, ?_⟩
    · simp [IsTableExisting, ht]
    · intro e
      simp [CreateTable, execEmptyStatementOk, Nat.not_lt.mpr ht]

/-- Witness for C8 (amended): creating table index 1 makes it exist;
index 7 is rejected by the existence check but reported as success by
CreateTable with the store unchanged. -/
theorem createTable_tableExists_witness :
    IsTableExisting true (CreateTable true emptyDB 1).2 1 = true ∧
    IsTableExisting true emptyDB 7 = false ∧
    CreateTable false emptyDB 7 = (true, emptyDB) :=
  ⟨(createTable_tableExists emptyDB 1).1 (by omega),
   ((createTable_tableExists emptyDB 7).2 (by omega)).1,
   ((createTable_tableExists emptyDB 7).2 (by omega)).2 false⟩

end NaviGenDB
